import Mathlib

/-!
Verification of the ESGLend Assessment and Adjustment Engine.

Shallow embedding of the deterministic computations in
`backend/app/services/pricing_engine.py`,
`backend/app/services/risk_scoring_engine.py` and
`backend/app/services/sfdr_compliance_engine.py`.

Modelling conventions:
* Python floats are modelled as `ℚ` (exact rationals); decimal literals such
  as `0.4`, `0.05`, `1.1` become `2/5`, `1/20`, `11/10`.
* Nullable columns (`Float` columns of the ORM) are `Option ℚ`; Python
  truthiness tests such as `if kpi.target_value and ...` are "is `some v`
  with `v ≠ 0`", while `is not None` tests are plain `Option.isSome`.
* The Python builtin `round(x, 2)` (round half to even) is `round2`.
* A Python `ZeroDivisionError` is modelled as `Except.error ()`; functions
  whose source can raise it return `Except Unit _`, totally-guarded
  functions return plain values.
* Dates are modelled as integer day offsets from "now"
  (`datetime.now() + timedelta(days = d)` becomes `d : ℤ`).
-/

namespace ESGLend

/-- Round half to even, the Python builtin `round` on an exact rational. -/
def roundHalfEven (x : ℚ) : ℤ :=
  if x - Int.floor x < 1/2 then Int.floor x
  else if 1/2 < x - Int.floor x then Int.floor x + 1
  else if Int.floor x % 2 = 0 then Int.floor x else Int.floor x + 1

/-- The Python builtin `round(x, 2)`. -/
def round2 (x : ℚ) : ℚ := (roundHalfEven (x * 100) : ℚ) / 100

/-- The `ESGKpi` row fields read by the engines
(`backend/app/models/models.py`, all nullable). -/
structure ESGKpi where
  kpi_category : Option String
  baseline_value : Option ℚ
  target_value : Option ℚ
  current_value : Option ℚ
deriving Repr, DecidableEq

/-- The `Covenant` row fields read by the engines. -/
structure Covenant where
  covenant_type : String
  threshold : Option ℚ
  current_value : Option ℚ
  status : String
deriving Repr, DecidableEq

/-- The `Loan` row fields read by the engines.  `maturity_days` is the day
offset from now to `maturity_date` when the latter is set. -/
structure Loan where
  status : String
  maturity_days : Option ℤ
  base_margin : Option ℚ
  interest_rate : Option ℚ
  amount : ℚ
  sustainability_linked : Bool
deriving Repr, DecidableEq

/-- Arithmetic mean of a list of rationals (`sum(l) / len(l)`). -/
def listMean (l : List ℚ) : ℚ := l.sum / l.length

/-! ## Pricing engine (`pricing_engine.py`) -/

/-- The achievement computed for one KPI inside
`LoanPricingEngine.calculate_esg_performance_score` (lines 38-45):
`none` when the truthiness test `if kpi.target_value and kpi.current_value
and kpi.baseline_value` fails or when `target_progress == 0`, otherwise
`min(current_progress / target_progress * 100, 100)`. -/
def kpiAchievement (k : ESGKpi) : Option ℚ :=
  match k.target_value, k.current_value, k.baseline_value with
  | some t, some c, some b =>
    if t ≠ 0 ∧ c ≠ 0 ∧ b ≠ 0 then
      if |t - b| > 0 then some (min (|c - b| / |t - b| * 100) 100) else none
    else none
  | _, _, _ => none

/-- ASCII lower-casing of one character (the effect of the Python
`str.lower()` on the ASCII category names the engine compares against). -/
def lowerChar (c : Char) : Char :=
  if 65 ≤ c.toNat ∧ c.toNat ≤ 90 then Char.ofNat (c.toNat + 32) else c

/-- The Python `str.lower()`, applied character-wise. -/
def lowerString (s : String) : String := ⟨s.data.map lowerChar⟩

/-- Category bucketing of line 48 of `pricing_engine.py`:
`kpi.kpi_category.lower() if kpi.kpi_category else "environmental"`
(`None` and the empty string are falsy in Python). -/
def kpiCategoryName (k : ESGKpi) : String :=
  match k.kpi_category with
  | some c => if c = "" then "environmental" else lowerString c
  | none => "environmental"

/-- The achievements collected into `category_scores[cat]` by the loop of
`calculate_esg_performance_score` (achievements whose lower-cased category
equals `cat`; categories outside the three buckets are dropped by the
`if category in category_scores` test, which the caller reflects by only
querying the three bucket names). -/
def categoryScores (kpis : List ESGKpi) (cat : String) : List ℚ :=
  kpis.filterMap fun k =>
    match kpiAchievement k with
    | some a => if kpiCategoryName k = cat then some a else none
    | none => none

/-- The weights dict `{"environmental": 0.40, "social": 0.30,
"governance": 0.30}`, in its (insertion-ordered) iteration order. -/
def esgWeights : List (String × ℚ) :=
  [("environmental", 2/5), ("social", 3/10), ("governance", 3/10)]

/-- The per-category contributions accumulated by the weighted-average loop
of `calculate_esg_performance_score` (lines 57-61): the categories with at
least one contributing KPI, paired with their weights. -/
def esgContribs (kpis : List ESGKpi) : List (ℚ × ℚ) :=
  esgWeights.filterMap fun cw =>
    if categoryScores kpis cw.1 ≠ [] then
      some (listMean (categoryScores kpis cw.1), cw.2)
    else none

/-- `LoanPricingEngine.calculate_esg_performance_score` (lines 26-63):
50 for a loan with no KPI rows; otherwise the weight-renormalized average
of per-category means over contributing categories, rounded to two
decimals, with 50 substituted when no category contributes. -/
def calculate_esg_performance_score (kpis : List ESGKpi) : ℚ :=
  if kpis = [] then 50
  else
    round2 (if ((esgContribs kpis).map fun aw => aw.2).sum > 0
      then ((esgContribs kpis).map fun aw => aw.1 * aw.2).sum
        / ((esgContribs kpis).map fun aw => aw.2).sum
      else 50)

/-- `LoanPricingEngine.determine_pricing_tier` (lines 65-70): first tier of
the insertion-ordered `pricing_tiers` dict whose threshold the score meets,
falling back to `"critical"`. -/
def determine_pricing_tier (esg_score : ℚ) : String :=
  if 90 ≤ esg_score then "excellent"
  else if 75 ≤ esg_score then "good"
  else if 60 ≤ esg_score then "fair"
  else if 40 ≤ esg_score then "poor"
  else if 0 ≤ esg_score then "critical"
  else "critical"

/-- The `"adjustment"` entry of `self.pricing_tiers[tier]`. -/
def tierAdjustment (tier : String) : ℚ :=
  if tier = "excellent" then -(1/2)
  else if tier = "good" then -(1/4)
  else if tier = "fair" then 0
  else if tier = "poor" then 1/4
  else 1/2

/-- `LoanPricingEngine.calculate_margin_adjustment` (lines 72-75). -/
def calculate_margin_adjustment (esg_score : ℚ) : ℚ :=
  tierAdjustment (determine_pricing_tier esg_score)

/-- The Python expression `v or d` on a nullable float: `d` when `v` is
`None` or `0`. -/
def orDefault (v : Option ℚ) (d : ℚ) : ℚ :=
  match v with
  | some x => if x = 0 then d else x
  | none => d

/-- The pricing fields computed by `LoanPricingEngine.update_loan_pricing`
(the values stored on the loan and in the `PricingHistory` row). -/
structure PricingResult where
  esg_performance_score : ℚ
  pricing_tier : String
  base_rate : ℚ
  base_margin : ℚ
  margin_adjustment : ℚ
  new_margin : ℚ
  new_total_rate : ℚ
  annual_savings : ℚ
  annual_cost : ℚ
deriving Repr, DecidableEq

/-- `LoanPricingEngine.update_loan_pricing` (lines 77-150), restricted to
the computed pricing values (persistence and the not-found check are
outside the embedding; the loan row is given). -/
def update_loan_pricing (loan : Loan) (kpis : List ESGKpi) : PricingResult :=
  let esg_score := calculate_esg_performance_score kpis
  let adj := calculate_margin_adjustment esg_score
  let bm := orDefault loan.base_margin 2
  let br := orDefault loan.interest_rate 4
  { esg_performance_score := esg_score
    pricing_tier := determine_pricing_tier esg_score
    base_rate := br
    base_margin := bm
    margin_adjustment := adj
    new_margin := bm + adj
    new_total_rate := br + (bm + adj)
    annual_savings := if adj < 0 then loan.amount * |adj| / 100 else 0
    annual_cost := if adj > 0 then loan.amount * adj / 100 else 0 }

/-! ## Risk scoring engine (`risk_scoring_engine.py`) -/

/-- The recognized "minimum" covenant types (line 41). -/
def minimumCovenantTypes : List String :=
  ["minimum_ebitda", "minimum_equity", "minimum_coverage"]

/-- The recognized "maximum" covenant types (line 44). -/
def maximumCovenantTypes : List String :=
  ["maximum_leverage", "maximum_debt"]

/-- The distance-to-threshold computation of
`calculate_covenant_breach_probability` (lines 39-49): skipped (`none`)
when either value is `None`; a `ZeroDivisionError` (`Except.error ()`)
when `threshold == 0`; otherwise the signed relative distance. -/
def covenantDistance (cov : Covenant) : Option (Except Unit ℚ) :=
  match cov.current_value, cov.threshold with
  | some c, some t =>
    some (if t = 0 then Except.error () else Except.ok (
      if cov.covenant_type ∈ minimumCovenantTypes then (c - t) / t
      else if cov.covenant_type ∈ maximumCovenantTypes then (t - c) / t
      else (c - t) / t))
  | _, _ => none

/-- Distance-to-indicator mapping (lines 52-59). -/
def breachIndicator (distance : ℚ) : ℚ :=
  if distance < 0 then 1
  else if distance < 1/10 then 4/5
  else if distance < 1/5 then 1/2
  else 1/10

/-- Sequences the per-covenant distance computations the way the Python
loop does: the first `ZeroDivisionError` aborts the whole call. -/
def collectDistances : List (Except Unit ℚ) → Except Unit (List ℚ)
  | [] => Except.ok []
  | Except.error e :: _ => Except.error e
  | Except.ok d :: rest =>
    match collectDistances rest with
    | Except.error e => Except.error e
    | Except.ok tl => Except.ok (d :: tl)

/-- `RiskScoringEngine.calculate_covenant_breach_probability` (lines
27-61).  `Except.error ()` is the uncaught `ZeroDivisionError` the source
raises for a covenant with both values set and `threshold == 0`. -/
def calculate_covenant_breach_probability (covenants : List Covenant) :
    Except Unit ℚ :=
  if covenants.filter (fun c => decide (c.status ≠ "terminated")) = [] then
    Except.ok 0
  else
    match collectDistances ((covenants.filter
        fun c => decide (c.status ≠ "terminated")).filterMap covenantDistance) with
    | Except.error e => Except.error e
    | Except.ok distances =>
      if distances.map breachIndicator = [] then Except.ok 0
      else Except.ok (round2 ((distances.map breachIndicator).sum
        / (distances.map breachIndicator).length * 100))

/-- The progress-to-risk bucket of `calculate_esg_risk_score`
(lines 80-87). -/
def riskBucket (progress : ℚ) : ℚ :=
  if progress < 1/4 then 80
  else if progress < 1/2 then 60
  else if progress < 3/4 then 40
  else 20

/-- The risk factor contributed by one KPI inside
`calculate_esg_risk_score` (lines 71-87): `none` when the truthiness test
fails or `target_distance` is not positive. -/
def kpiRiskFactor (k : ESGKpi) : Option ℚ :=
  match k.target_value, k.current_value, k.baseline_value with
  | some t, some c, some b =>
    if t ≠ 0 ∧ c ≠ 0 ∧ b ≠ 0 then
      if |t - b| > 0 then some (riskBucket (|c - b| / |t - b|)) else none
    else none
  | _, _, _ => none

/-- `RiskScoringEngine.calculate_esg_risk_score` (lines 63-89). -/
def calculate_esg_risk_score (kpis : List ESGKpi) : ℚ :=
  if kpis = [] then 50
  else if kpis.filterMap kpiRiskFactor = [] then 50
  else round2 ((kpis.filterMap kpiRiskFactor).sum
    / (kpis.filterMap kpiRiskFactor).length)

/-- The `status_risk` lookup with default 50 (lines 100-107). -/
def statusRisk (status : String) : ℚ :=
  if status = "active" then 20
  else if status = "under_review" then 40
  else if status = "at_risk" then 70
  else if status = "defaulted" then 100
  else if status = "restructured" then 60
  else 50

/-- `RiskScoringEngine.calculate_financial_risk_score` (lines 91-130);
`verifications` is the status column of the verification rows of the loan,
most recent first (the query orders descending and limits to 5). -/
def calculate_financial_risk_score (loan : Loan)
    (verifications : List String) : ℚ :=
  let inds1 := [statusRisk loan.status]
  let recent := verifications.take 5
  let inds2 := if recent ≠ [] then
      inds1 ++ [((recent.filter fun s => decide (s = "failed")).length : ℚ)
        / recent.length * 100]
    else inds1
  let inds3 := match loan.maturity_days with
    | some d => inds2 ++ [if d < 30 then (80 : ℚ) else if d < 90 then 50 else 20]
    | none => inds2
  if inds3 = [] then 50
  else round2 (inds3.sum / inds3.length)

/-- `RiskScoringEngine.calculate_comprehensive_risk_score` (lines 132-141):
0.4 covenant + 0.3 ESG + 0.3 financial, rounded; an uncaught
`ZeroDivisionError` from the covenant sub-score propagates. -/
def calculate_comprehensive_risk_score (loan : Loan)
    (covenants : List Covenant) (kpis : List ESGKpi)
    (verifications : List String) : Except Unit ℚ :=
  match calculate_covenant_breach_probability covenants with
  | Except.error e => Except.error e
  | Except.ok covenant_risk =>
    Except.ok (round2 (covenant_risk * (2/5)
      + calculate_esg_risk_score kpis * (3/10)
      + calculate_financial_risk_score loan verifications * (3/10)))

/-- `RiskScoringEngine.categorize_risk` (lines 143-148): the insertion-
ordered scan of `self.risk_categories` followed by the fallback. -/
def categorize_risk (risk_score : ℚ) : String :=
  if 0 ≤ risk_score ∧ risk_score < 25 then "low"
  else if 25 ≤ risk_score ∧ risk_score < 50 then "moderate"
  else if 50 ≤ risk_score ∧ risk_score < 75 then "elevated"
  else if 75 ≤ risk_score ∧ risk_score < 100 then "high"
  else if 75 ≤ risk_score then "high" else "low"

/-- The body of the covenant loop of `RiskScoringEngine.predict_breach_date`
(lines 161-172), threading the `earliest_breach` accumulator.  Dates are
day offsets from now: `int(months_to_breach * 30)` becomes
`Int.floor (months * 30)` (truncation equals floor for the positive months
the guard admits).  `Except.error ()` is the `ZeroDivisionError` raised
when a minimum-type covenant has `threshold == 0` and
`current < threshold * 1.1`. -/
def breachStep (earliest : Option ℤ) (cov : Covenant) :
    Except Unit (Option ℤ) :=
  match cov.current_value, cov.threshold with
  | some c, some t =>
    if cov.covenant_type ∈ minimumCovenantTypes then
      if c < t * (11/10) then
        if t = 0 then Except.error ()
        else
          let months := (c - t) / (t * (1/20))
          if 0 < months ∧ months < 12 then
            Except.ok (some (match earliest with
              | none => Int.floor (months * 30)
              | some e =>
                if Int.floor (months * 30) < e then Int.floor (months * 30)
                else e))
          else Except.ok earliest
      else Except.ok earliest
    else Except.ok earliest
  | _, _ => Except.ok earliest

/-- The covenant loop of `predict_breach_date`. -/
def predictFold : Option ℤ → List Covenant → Except Unit (Option ℤ)
  | earliest, [] => Except.ok earliest
  | earliest, cov :: rest =>
    match breachStep earliest cov with
    | Except.error e => Except.error e
    | Except.ok e2 => predictFold e2 rest

/-- `RiskScoringEngine.predict_breach_date` (lines 150-174). -/
def predict_breach_date (covenants : List Covenant) :
    Except Unit (Option ℤ) :=
  if covenants.filter (fun c => decide (c.status ≠ "terminated")) = [] then
    Except.ok none
  else predictFold none (covenants.filter fun c => decide (c.status ≠ "terminated"))

/-- `RiskScoringEngine._calculate_risk_trend` (lines 289-306) applied to
the risk scores of the assessment rows of the loan, most recent first (the
query limits to 3; only the first two are read). -/
def calc_risk_trend (scores : List ℚ) : String :=
  match scores.take 3 with
  | recent :: previous :: _ =>
    if recent > previous + 5 then "increasing"
    else if recent < previous - 5 then "decreasing"
    else "stable"
  | _ => "stable"

/-- The `"trend"` field of `RiskScoringEngine.create_risk_assessment`
(lines 229-287): the new assessment row is committed before
`_calculate_risk_trend` runs, so the trend query sees the new score in
front of the pre-existing ones (`prior_scores`, most recent first). -/
def create_risk_assessment_trend (loan : Loan) (covenants : List Covenant)
    (kpis : List ESGKpi) (verifications : List String)
    (prior_scores : List ℚ) : Except Unit String :=
  match calculate_comprehensive_risk_score loan covenants kpis verifications with
  | Except.error e => Except.error e
  | Except.ok overall => Except.ok (calc_risk_trend (overall :: prior_scores))

/-! ## SFDR compliance engine (`sfdr_compliance_engine.py`) -/

/-- The `meaningful_targets` count of
`SFDRComplianceEngine.classify_loan_sfdr_article` (lines 57-61): KPIs with
both `target_value` and `baseline_value` not `None` (an `is not None`
test, not a truthiness test). -/
def meaningfulTargetCount (kpis : List ESGKpi) : ℕ :=
  (kpis.filter fun k => k.target_value.isSome && k.baseline_value.isSome).length

/-- `SFDRComplianceEngine.classify_loan_sfdr_article` (lines 41-70);
the loan row is given (the not-found check is outside the embedding). -/
def classify_loan_sfdr_article (loan : Loan) (kpis : List ESGKpi) : String :=
  if !loan.sustainability_linked then "article_6"
  else if kpis = [] then "article_6"
  else if meaningfulTargetCount kpis ≥ 5 then "article_9"
  else if meaningfulTargetCount kpis ≥ 2 then "article_8"
  else "article_6"

/-- The contribution of one KPI to the DNSH counters of
`calculate_sustainable_investment_percentage` (lines 127-132): `none` when
the truthiness test `if kpi.target_value and kpi.current_value` fails
(note: `baseline_value` is never read), otherwise whether
`current_value >= target_value * 0.8`. -/
def dnshFlag (k : ESGKpi) : Option Bool :=
  match k.target_value, k.current_value with
  | some t, some c =>
    if t ≠ 0 ∧ c ≠ 0 then some (decide (t * (4/5) ≤ c)) else none
  | _, _ => none

/-- The step function applied to the compliance rate (lines 139-147). -/
def sipStep (compliance_rate : ℚ) : ℚ :=
  if 90 ≤ compliance_rate then 100
  else if 75 ≤ compliance_rate then 75
  else if 50 ≤ compliance_rate then 50
  else 0

/-- `SFDRComplianceEngine.calculate_sustainable_investment_percentage`
(lines 112-147). -/
def calculate_sustainable_investment_percentage (loan : Loan)
    (kpis : List ESGKpi) : ℚ :=
  if !loan.sustainability_linked then 0
  else if kpis = [] then 0
  else if (kpis.filterMap dnshFlag).length = 0 then 0
  else sipStep ((((kpis.filterMap dnshFlag).filter id).length : ℚ)
    / (kpis.filterMap dnshFlag).length * 100)

/-! ## Helper lemmas -/

lemma floor_le_roundHalfEven (x : ℚ) : Int.floor x ≤ roundHalfEven x := by
  unfold roundHalfEven
  repeat' split
  all_goals omega

lemma roundHalfEven_le_add_half (x : ℚ) : (roundHalfEven x : ℚ) ≤ x + 1/2 := by
  have h1 : (Int.floor x : ℚ) ≤ x := Int.floor_le x
  by_cases hA : x - Int.floor x < 1/2
  · simp only [roundHalfEven, if_pos hA]
    linarith
  · have hA2 : (1 : ℚ)/2 ≤ x - Int.floor x := le_of_not_lt hA
    by_cases hB : (1 : ℚ)/2 < x - Int.floor x
    · simp only [roundHalfEven, if_neg hA, if_pos hB]
      push_cast
      linarith
    · by_cases hC : Int.floor x % 2 = 0
      · simp only [roundHalfEven, if_neg hA, if_neg hB, if_pos hC]
        linarith
      · simp only [roundHalfEven, if_neg hA, if_neg hB, if_neg hC]
        push_cast
        linarith

lemma le_round2 (n : ℤ) (x : ℚ) (h : (n : ℚ) ≤ x) : (n : ℚ) ≤ round2 x := by
  have h1 : (100 * n : ℤ) ≤ Int.floor (x * 100) := by
    apply Int.le_floor.mpr
    push_cast
    linarith
  have h2 := floor_le_roundHalfEven (x * 100)
  have h3 : (100 * n : ℤ) ≤ roundHalfEven (x * 100) := le_trans h1 h2
  unfold round2
  rw [le_div_iff₀ (by norm_num : (0:ℚ) < 100)]
  have h4 : ((100 * n : ℤ) : ℚ) ≤ (roundHalfEven (x * 100) : ℚ) := by
    exact_mod_cast h3
  push_cast at h4
  linarith

lemma round2_le (x : ℚ) (n : ℤ) (h : x ≤ (n : ℚ)) : round2 x ≤ (n : ℚ) := by
  have h1 : (roundHalfEven (x * 100) : ℚ) ≤ x * 100 + 1/2 :=
    roundHalfEven_le_add_half _
  have h2 : roundHalfEven (x * 100) < 100 * n + 1 := by
    have h2q : (roundHalfEven (x * 100) : ℚ) < (100 * n + 1 : ℤ) := by
      push_cast
      linarith
    exact_mod_cast h2q
  have h3 : roundHalfEven (x * 100) ≤ 100 * n := by omega
  unfold round2
  rw [div_le_iff₀ (by norm_num : (0:ℚ) < 100)]
  have h4 : (roundHalfEven (x * 100) : ℚ) ≤ ((100 * n : ℤ) : ℚ) := by
    exact_mod_cast h3
  push_cast at h4
  linarith

lemma roundHalfEven_intCast (n : ℤ) : roundHalfEven (n : ℚ) = n := by
  unfold roundHalfEven
  rw [Int.floor_intCast]
  rw [if_pos (by norm_num : (n : ℚ) - n < 1/2)]

lemma round2_intCast (n : ℤ) : round2 (n : ℚ) = n := by
  unfold round2
  have h : (n : ℚ) * 100 = ((n * 100 : ℤ) : ℚ) := by push_cast; ring
  rw [h, roundHalfEven_intCast]
  push_cast
  field_simp

lemma listMean_bounds (l : List ℚ) (hne : l ≠ [])
    (h : ∀ x ∈ l, 0 ≤ x ∧ x ≤ 100) : 0 ≤ listMean l ∧ listMean l ≤ 100 := by
  have hlen : 0 < (l.length : ℚ) := by
    have := List.length_pos.mpr hne
    exact_mod_cast this
  constructor
  · exact div_nonneg (List.sum_nonneg fun x hx => (h x hx).1) (le_of_lt hlen)
  · unfold listMean
    rw [div_le_iff₀ hlen]
    have h2 := List.sum_le_card_nsmul l 100 fun x hx => (h x hx).2
    rw [nsmul_eq_mul] at h2
    linarith

lemma weighted_ratio_bound (l : List (ℚ × ℚ))
    (h : ∀ p ∈ l, (0 ≤ p.1 ∧ p.1 ≤ 100) ∧ 0 < p.2) :
    0 ≤ (l.map fun aw => aw.1 * aw.2).sum ∧
      (l.map fun aw => aw.1 * aw.2).sum ≤ 100 * (l.map fun aw => aw.2).sum := by
  induction l with
  | nil => simp
  | cons p rest ih =>
    have hp := h p (by simp)
    have hr := ih fun q hq => h q (by simp [hq])
    simp only [List.map_cons, List.sum_cons]
    constructor
    · nlinarith [hp.1.1, hp.2, hr.1]
    · nlinarith [hp.1.2, hp.2, hr.2]

lemma filterMap_middle_none {α β : Type} (f : α → Option β)
    (l1 l2 : List α) (k : α) (h : f k = none) :
    (l1 ++ k :: l2).filterMap f = (l1 ++ l2).filterMap f := by
  simp [List.filterMap_append, List.filterMap_cons, h]

lemma kpiAchievement_eq_some (k : ESGKpi) (t c b : ℚ)
    (ht : k.target_value = some t) (hc : k.current_value = some c)
    (hb : k.baseline_value = some b)
    (h1 : t ≠ 0) (h2 : c ≠ 0) (h3 : b ≠ 0) (h4 : t ≠ b) :
    kpiAchievement k = some (min (|c - b| / |t - b| * 100) 100) := by
  have habs : |t - b| > 0 := abs_pos.mpr (sub_ne_zero.mpr h4)
  simp only [kpiAchievement, ht, hc, hb]
  rw [if_pos ⟨h1, h2, h3⟩, if_pos habs]

lemma kpiAchievement_bounds (k : ESGKpi) (a : ℚ)
    (h : kpiAchievement k = some a) : 0 ≤ a ∧ a ≤ 100 := by
  rcases hT : k.target_value with _ | t <;>
    rcases hC : k.current_value with _ | c <;>
    rcases hB : k.baseline_value with _ | b <;>
    simp only [kpiAchievement, hT, hC, hB] at h
  any_goals contradiction
  split_ifs at h with h1 h2
  rcases Option.some.inj h with rfl
  constructor
  · apply le_min _ (by norm_num)
    positivity
  · exact min_le_right _ _

lemma kpiAchievement_eq_none (k : ESGKpi)
    (h : k.target_value = none ∨ k.target_value = some 0 ∨
      k.current_value = none ∨ k.current_value = some 0 ∨
      k.baseline_value = none ∨ k.baseline_value = some 0) :
    kpiAchievement k = none := by
  rcases h with h | h | h | h | h | h <;>
    rcases hT : k.target_value with _ | t <;>
    rcases hC : k.current_value with _ | c <;>
    rcases hB : k.baseline_value with _ | b <;>
    simp_all [kpiAchievement]

lemma kpiAchievement_eq_none_of_tb (k : ESGKpi) (t b : ℚ)
    (ht : k.target_value = some t) (hb : k.baseline_value = some b)
    (heq : t = b) : kpiAchievement k = none := by
  rcases hC : k.current_value with _ | c <;>
    simp [kpiAchievement, ht, hb, hC, heq, sub_self]

lemma kpiRiskFactor_eq_none (k : ESGKpi)
    (h : k.target_value = none ∨ k.target_value = some 0 ∨
      k.current_value = none ∨ k.current_value = some 0 ∨
      k.baseline_value = none ∨ k.baseline_value = some 0) :
    kpiRiskFactor k = none := by
  rcases h with h | h | h | h | h | h <;>
    rcases hT : k.target_value with _ | t <;>
    rcases hC : k.current_value with _ | c <;>
    rcases hB : k.baseline_value with _ | b <;>
    simp_all [kpiRiskFactor]

lemma dnshFlag_eq_none (k : ESGKpi)
    (h : k.target_value = none ∨ k.target_value = some 0 ∨
      k.current_value = none ∨ k.current_value = some 0) :
    dnshFlag k = none := by
  rcases h with h | h | h | h <;>
    rcases hT : k.target_value with _ | t <;>
    rcases hC : k.current_value with _ | c <;>
    simp_all [dnshFlag]

lemma round2_nonneg (x : ℚ) (h : 0 ≤ x) : 0 ≤ round2 x := by
  have h2 := le_round2 0 x (by exact_mod_cast h)
  exact_mod_cast h2

lemma round2_le_hundred (x : ℚ) (h : x ≤ 100) : round2 x ≤ 100 := by
  have h2 := round2_le x 100 (by exact_mod_cast h)
  exact_mod_cast h2

lemma round2_fifty : round2 50 = 50 := by
  have h := round2_intCast 50
  norm_num at h
  exact h

lemma categoryScores_mem (kpis : List ESGKpi) (cat : String) (a : ℚ)
    (ha : a ∈ categoryScores kpis cat) :
    ∃ k ∈ kpis, kpiAchievement k = some a := by
  obtain ⟨k, hk, hfk⟩ := List.mem_filterMap.mp ha
  refine ⟨k, hk, ?_⟩
  rcases hach : kpiAchievement k with _ | a2 <;> rw [hach] at hfk
  · simp at hfk
  · simp only at hfk
    split_ifs at hfk
    exact hfk

lemma categoryScores_middle (l1 l2 : List ESGKpi) (k : ESGKpi) (cat : String)
    (h : kpiAchievement k = none) :
    categoryScores (l1 ++ k :: l2) cat = categoryScores (l1 ++ l2) cat := by
  unfold categoryScores
  exact filterMap_middle_none _ _ _ _ (by simp [h])

lemma esg_score_of_no_contrib (kpis : List ESGKpi)
    (h : ∀ cat, categoryScores kpis cat = []) :
    calculate_esg_performance_score kpis = 50 := by
  by_cases hk : kpis = []
  · simp [calculate_esg_performance_score, hk]
  · have hc : esgContribs kpis = [] := by
      simp [esgContribs, esgWeights, h]
    simp only [calculate_esg_performance_score, if_neg hk, hc, List.map_nil,
      List.sum_nil, gt_iff_lt, lt_irrefl, if_neg (lt_irrefl (0 : ℚ))]
    exact round2_fifty

lemma esg_score_middle (l1 l2 : List ESGKpi) (k : ESGKpi)
    (h : kpiAchievement k = none) :
    calculate_esg_performance_score (l1 ++ k :: l2) =
      calculate_esg_performance_score (l1 ++ l2) := by
  have hcs : ∀ cat, categoryScores (l1 ++ k :: l2) cat
      = categoryScores (l1 ++ l2) cat :=
    fun cat => categoryScores_middle l1 l2 k cat h
  by_cases h2 : l1 ++ l2 = []
  · have hL : calculate_esg_performance_score (l1 ++ k :: l2) = 50 :=
      esg_score_of_no_contrib _ fun cat => by
        rw [hcs cat, h2]
        rfl
    have hR : calculate_esg_performance_score (l1 ++ l2) = 50 := by
      rw [h2]
      rfl
    rw [hL, hR]
  · have h1 : l1 ++ k :: l2 ≠ [] := by simp
    have hcon : esgContribs (l1 ++ k :: l2) = esgContribs (l1 ++ l2) := by
      unfold esgContribs
      simp only [hcs]
    unfold calculate_esg_performance_score
    rw [if_neg h1, if_neg h2, hcon]

lemma esg_risk_middle (l1 l2 : List ESGKpi) (k : ESGKpi)
    (h : kpiRiskFactor k = none) :
    calculate_esg_risk_score (l1 ++ k :: l2) =
      calculate_esg_risk_score (l1 ++ l2) := by
  have hf : (l1 ++ k :: l2).filterMap kpiRiskFactor
      = (l1 ++ l2).filterMap kpiRiskFactor :=
    filterMap_middle_none _ _ _ _ h
  by_cases h2 : l1 ++ l2 = []
  · have hemp : (l1 ++ k :: l2).filterMap kpiRiskFactor = [] := by
      rw [hf, h2]
      rfl
    have hL : calculate_esg_risk_score (l1 ++ k :: l2) = 50 := by
      unfold calculate_esg_risk_score
      rw [if_neg (by simp : l1 ++ k :: l2 ≠ []), if_pos hemp]
    have hR : calculate_esg_risk_score (l1 ++ l2) = 50 := by
      rw [h2]
      rfl
    rw [hL, hR]
  · have h1 : l1 ++ k :: l2 ≠ [] := by simp
    unfold calculate_esg_risk_score
    rw [if_neg h1, if_neg h2, hf]

lemma sip_middle (loan : Loan) (l1 l2 : List ESGKpi) (k : ESGKpi)
    (h : dnshFlag k = none) :
    calculate_sustainable_investment_percentage loan (l1 ++ k :: l2) =
      calculate_sustainable_investment_percentage loan (l1 ++ l2) := by
  have hf : (l1 ++ k :: l2).filterMap dnshFlag
      = (l1 ++ l2).filterMap dnshFlag :=
    filterMap_middle_none _ _ _ _ h
  rcases hSL : loan.sustainability_linked with _ | _
  · unfold calculate_sustainable_investment_percentage
    rw [hSL]
    rfl
  · by_cases h2 : l1 ++ l2 = []
    · have hemp : (l1 ++ k :: l2).filterMap dnshFlag = [] := by
        rw [hf, h2]
        rfl
      unfold calculate_sustainable_investment_percentage
      rw [hSL, h2]
      simp [hemp]
    · have h1 : l1 ++ k :: l2 ≠ [] := by simp
      unfold calculate_sustainable_investment_percentage
      rw [hf, if_neg h1, if_neg h2]

lemma esgContribs_elem_bounds (kpis : List ESGKpi) :
    ∀ p ∈ esgContribs kpis, (0 ≤ p.1 ∧ p.1 ≤ 100) ∧ 0 < p.2 := by
  intro p hp
  unfold esgContribs at hp
  rcases List.mem_filterMap.mp hp with ⟨cw, hcw, heq⟩
  by_cases hne : categoryScores kpis cw.1 = []
  · rw [if_neg (by simp [hne])] at heq
    exact absurd heq (by simp)
  · rw [if_pos hne] at heq
    rcases Option.some.inj heq with rfl
    constructor
    · apply listMean_bounds _ hne
      intro a ha
      obtain ⟨kk, _, hach⟩ := categoryScores_mem kpis cw.1 a ha
      exact kpiAchievement_bounds kk a hach
    · have : cw = ("environmental", (2 : ℚ)/5) ∨ cw = ("social", (3 : ℚ)/10)
          ∨ cw = ("governance", (3 : ℚ)/10) := by
        simpa [esgWeights] using hcw
      rcases this with hcw2 | hcw2 | hcw2 <;> rw [hcw2] <;> norm_num

lemma esg_score_bounds (kpis : List ESGKpi) :
    0 ≤ calculate_esg_performance_score kpis ∧
      calculate_esg_performance_score kpis ≤ 100 := by
  unfold calculate_esg_performance_score
  split_ifs with hk hw
  · norm_num
  · have hb := weighted_ratio_bound (esgContribs kpis) (esgContribs_elem_bounds kpis)
    constructor
    · exact round2_nonneg _ (div_nonneg hb.1 (le_of_lt hw))
    · apply round2_le_hundred
      rw [div_le_iff₀ hw]
      linarith [hb.2]
  · rw [round2_fifty]
    norm_num

lemma esg_score_single_cat (kpis : List ESGKpi)
    (h1 : categoryScores kpis "environmental" = [])
    (h2 : categoryScores kpis "social" = [])
    (h3 : categoryScores kpis "governance" ≠ []) :
    calculate_esg_performance_score kpis =
      round2 (listMean (categoryScores kpis "governance")) := by
  have hk : kpis ≠ [] := by
    intro hnil
    rw [hnil] at h3
    exact h3 rfl
  have hc : esgContribs kpis
      = [(listMean (categoryScores kpis "governance"), 3/10)] := by
    unfold esgContribs esgWeights
    simp [h1, h2, h3]
  unfold calculate_esg_performance_score
  rw [if_neg hk, hc]
  simp only [List.map_cons, List.map_nil, List.sum_cons, List.sum_nil]
  rw [if_pos (by norm_num : (3 : ℚ)/10 + 0 > 0)]
  congr 1
  field_simp

lemma covenantDistance_ok (cov : Covenant) (e : Except Unit ℚ)
    (hth : cov.threshold ≠ some 0) (h : covenantDistance cov = some e) :
    ∃ d, e = Except.ok d := by
  rcases hC : cov.current_value with _ | c <;>
    rcases hT : cov.threshold with _ | t <;>
    simp only [covenantDistance, hC, hT] at h
  any_goals contradiction
  have ht0 : t ≠ 0 := fun h0 => hth (by rw [hT, h0])
  rw [if_neg ht0] at h
  exact ⟨_, (Option.some.inj h).symm⟩

lemma collectDistances_ok (l : List (Except Unit ℚ))
    (h : ∀ e ∈ l, ∃ d, e = Except.ok d) :
    ∃ ds, collectDistances l = Except.ok ds := by
  induction l with
  | nil => exact ⟨[], rfl⟩
  | cons e rest ih =>
    obtain ⟨d, rfl⟩ := h e (by simp)
    obtain ⟨ds, hds⟩ := ih fun x hx => h x (by simp [hx])
    exact ⟨d :: ds, by simp [collectDistances, hds]⟩

lemma breach_prob_ok (covs : List Covenant)
    (h : ∀ c ∈ covs, c.threshold ≠ some 0) :
    ∃ q, calculate_covenant_breach_probability covs = Except.ok q := by
  by_cases hemp : covs.filter (fun c => decide (c.status ≠ "terminated")) = []
  · refine ⟨0, ?_⟩
    unfold calculate_covenant_breach_probability
    rw [if_pos hemp]
  · obtain ⟨ds, hds⟩ := collectDistances_ok
      ((covs.filter fun c => decide (c.status ≠ "terminated")).filterMap
        covenantDistance)
      (by
        intro e he
        obtain ⟨cov, hcov, hcd⟩ := List.mem_filterMap.mp he
        exact covenantDistance_ok cov e (h cov (List.mem_filter.mp hcov).1) hcd)
    unfold calculate_covenant_breach_probability
    rw [if_neg hemp, hds]
    dsimp only
    split_ifs with hbe
    · exact ⟨0, rfl⟩
    · exact ⟨_, rfl⟩

lemma breachStep_skip (earliest : Option ℤ) (cov : Covenant)
    (h : cov.covenant_type ∉ minimumCovenantTypes) :
    breachStep earliest cov = Except.ok earliest := by
  rcases hC : cov.current_value with _ | c <;>
    rcases hT : cov.threshold with _ | t <;>
    simp only [breachStep, hC, hT]
  rw [if_neg h]

lemma predictFold_skip (l : List Covenant) (acc : Option ℤ)
    (h : ∀ c ∈ l, c.covenant_type ∉ minimumCovenantTypes) :
    predictFold acc l = Except.ok acc := by
  induction l generalizing acc with
  | nil => rfl
  | cons cov rest ih =>
    unfold predictFold
    rw [breachStep_skip acc cov (h cov (by simp))]
    exact ih acc fun c hc => h c (by simp [hc])

lemma margin_adjustment_eq (s : ℚ) :
    calculate_margin_adjustment s =
      if 90 ≤ s then -(1/2)
      else if 75 ≤ s then -(1/4)
      else if 60 ≤ s then 0
      else if 40 ≤ s then 1/4
      else 1/2 := by
  unfold calculate_margin_adjustment determine_pricing_tier
  split_ifs <;> rfl

/-! ## Concrete rows used by witnesses and counterexamples -/

/-- A compliant minimum-type covenant with a zero threshold and a set
current value. -/
def zeroThresholdCovenant : Covenant :=
  { covenant_type := "minimum_ebitda", threshold := some 0,
    current_value := some 5, status := "compliant" }

/-- A minimum-type covenant with a zero threshold and a negative current
value (so `current < threshold * 1.1` holds). -/
def zeroThresholdNegCovenant : Covenant :=
  { covenant_type := "minimum_ebitda", threshold := some 0,
    current_value := some (-1), status := "compliant" }

/-- The scenario covenant of the spec: `minimum_ebitda`, threshold 100,
current 95. -/
def healthyCovenant : Covenant :=
  { covenant_type := "minimum_ebitda", threshold := some 100,
    current_value := some 95, status := "compliant" }

/-- A maximum-type covenant, well over its threshold. -/
def maxCovenant : Covenant :=
  { covenant_type := "maximum_leverage", threshold := some 100,
    current_value := some 200, status := "breached" }

/-- An active sustainability-linked loan with no optional field set. -/
def plainLoan : Loan :=
  { status := "active", maturity_days := none, base_margin := none,
    interest_rate := none, amount := 0, sustainability_linked := true }

/-- `plainLoan` with the sustainability flag cleared. -/
def unlinkedLoan : Loan :=
  { status := "active", maturity_days := none, base_margin := none,
    interest_rate := none, amount := 0, sustainability_linked := false }

/-- A governance KPI whose achievement is `100/3` (baseline 3, target 6,
current 4). -/
def govKpi : ESGKpi :=
  { kpi_category := some "governance", baseline_value := some 3,
    target_value := some 6, current_value := some 4 }

/-- An environmental KPI with a zero baseline but target and current set
(current 8 meets 80 percent of target 10). -/
def zeroBaselineKpi : ESGKpi :=
  { kpi_category := some "environmental", baseline_value := some 0,
    target_value := some 10, current_value := some 8 }

/-- An environmental KPI whose current value is exactly 0. -/
def zeroCurrentKpi : ESGKpi :=
  { kpi_category := some "environmental", baseline_value := some 5,
    target_value := some 10, current_value := some 0 }

/-- The scenario KPI of the spec: baseline 100, target 30, current 65. -/
def scenarioKpi : ESGKpi :=
  { kpi_category := some "environmental", baseline_value := some 100,
    target_value := some 30, current_value := some 65 }

/-- A KPI with both target and baseline set (a "meaningful target"). -/
def meaningfulKpi : ESGKpi :=
  { kpi_category := some "environmental", baseline_value := some 1,
    target_value := some 2, current_value := none }

/-! ## Concrete evaluations -/

lemma financial_risk_plain_eval : calculate_financial_risk_score plainLoan [] = 20 := by
  have h20 : round2 20 = 20 := by
    have h := round2_intCast 20
    exact_mod_cast h
  simp [calculate_financial_risk_score, plainLoan, statusRisk]
  norm_num [h20]

lemma comp_risk_plain_eval :
    calculate_comprehensive_risk_score plainLoan [] [] [] = Except.ok 21 := by
  have h21 : round2 21 = 21 := by
    have h := round2_intCast 21
    exact_mod_cast h
  simp [calculate_comprehensive_risk_score, calculate_covenant_breach_probability,
    calculate_esg_risk_score, financial_risk_plain_eval]
  norm_num [h21]

lemma kpiAchievement_govKpi : kpiAchievement govKpi = some (100/3) := by
  simp [kpiAchievement, govKpi]
  norm_num [min_def]

lemma kpiCategoryName_govKpi : kpiCategoryName govKpi = "governance" := by decide

lemma categoryScores_govKpi_gov :
    categoryScores [govKpi] "governance" = [100/3] := by
  simp [categoryScores, kpiAchievement_govKpi, kpiCategoryName_govKpi]

lemma categoryScores_govKpi_env :
    categoryScores [govKpi] "environmental" = [] := by
  simp [categoryScores, kpiAchievement_govKpi, kpiCategoryName_govKpi]

lemma categoryScores_govKpi_soc :
    categoryScores [govKpi] "social" = [] := by
  simp [categoryScores, kpiAchievement_govKpi, kpiCategoryName_govKpi]

lemma esg_score_govKpi_eval :
    calculate_esg_performance_score [govKpi] = 3333/100 := by
  rw [esg_score_single_cat [govKpi] categoryScores_govKpi_env
    categoryScores_govKpi_soc (by rw [categoryScores_govKpi_gov]; simp),
    categoryScores_govKpi_gov]
  norm_num [listMean, round2, roundHalfEven]

lemma dnshFlag_zeroBaselineKpi : dnshFlag zeroBaselineKpi = some true := by
  simp [dnshFlag, zeroBaselineKpi]
  norm_num

lemma sip_zeroBaselineKpi_eval :
    calculate_sustainable_investment_percentage plainLoan [zeroBaselineKpi]
      = 100 := by
  simp [calculate_sustainable_investment_percentage, plainLoan,
    dnshFlag_zeroBaselineKpi, sipStep]
  norm_num

/-! ## Claims -/

/-- C1: the claim states that every ratio computation checks its
denominator and never raises; but
`RiskScoringEngine.calculate_covenant_breach_probability` divides by
`covenant.threshold` unguarded, so a covenant with both values set and
threshold 0 raises a `ZeroDivisionError` (first conjunct: the embedded
call returns `Except.error ()` on such a covenant).  The second conjunct
shows the raise is exactly the missing zero-threshold guard: whenever no
covenant has threshold 0 the call returns normally. -/
theorem C1_breach_probability_zero_threshold_raises :
    calculate_covenant_breach_probability [zeroThresholdCovenant]
      = Except.error () ∧
    ∀ covs : List Covenant, (∀ c ∈ covs, c.threshold ≠ some 0) →
      ∃ q, calculate_covenant_breach_probability covs = Except.ok q := by
  exact ⟨rfl, breach_prob_ok⟩

/-- Witness for the hypothesised conjunct of C1: a covenant list with no
zero threshold, on which the call returns `Except.ok`. -/
theorem C1_breach_probability_zero_threshold_raises_witness :
    (∀ c ∈ [healthyCovenant], c.threshold ≠ some (0 : ℚ)) ∧
    ∃ q, calculate_covenant_breach_probability [healthyCovenant]
      = Except.ok q :=
  ⟨by decide,
    C1_breach_probability_zero_threshold_raises.2 [healthyCovenant] (by decide)⟩

/-- C2 counterexample: with exactly one prior RiskAssessment row (score
90), `create_risk_assessment` reports trend `"decreasing"`, not the
`"stable"` the claim requires for fewer than 2 prior rows — the newly
committed assessment (score 21 here) is itself counted by the trend
query. -/
theorem C2_counterexample :
    create_risk_assessment_trend plainLoan [] [] [] [90]
      = Except.ok "decreasing" ∧ "decreasing" ≠ "stable" := by
  refine ⟨?_, by decide⟩
  unfold create_risk_assessment_trend
  rw [comp_risk_plain_eval]
  norm_num [calc_risk_trend]

/-- C2 (amended): the newly persisted assessment always participates in
the trend query, so the trend is `"stable"` when no prior row exists, and
with at least one prior row the new score `s` is compared against the most
recent prior score `p`: above `p + 5` gives `"increasing"`, below `p - 5`
gives `"decreasing"`, otherwise `"stable"`. -/
theorem C2_risk_trend (loan : Loan) (covs : List Covenant)
    (kpis : List ESGKpi) (verifs : List String) (prior_scores : List ℚ)
    (s : ℚ)
    (h : calculate_comprehensive_risk_score loan covs kpis verifs
      = Except.ok s) :
    (prior_scores = [] →
      create_risk_assessment_trend loan covs kpis verifs prior_scores
        = Except.ok "stable") ∧
    (∀ p rest, prior_scores = p :: rest →
      create_risk_assessment_trend loan covs kpis verifs prior_scores
        = Except.ok (if s > p + 5 then "increasing"
            else if s < p - 5 then "decreasing" else "stable")) := by
  constructor
  · intro hp
    unfold create_risk_assessment_trend
    rw [h, hp]
    rfl
  · intro p rest hp
    unfold create_risk_assessment_trend
    rw [h, hp]
    rfl

/-- Witness for C2 (amended), at the loan with no data (new score 21):
no prior row gives `"stable"`; prior score 90 gives the comparison
result. -/
theorem C2_risk_trend_witness :
    create_risk_assessment_trend plainLoan [] [] [] [] = Except.ok "stable" ∧
    create_risk_assessment_trend plainLoan [] [] [] [90]
      = Except.ok (if (21 : ℚ) > 90 + 5 then "increasing"
          else if (21 : ℚ) < 90 - 5 then "decreasing" else "stable") :=
  ⟨(C2_risk_trend plainLoan [] [] [] [] 21 comp_risk_plain_eval).1 rfl,
   (C2_risk_trend plainLoan [] [] [] [90] 21 comp_risk_plain_eval).2 90 [] rfl⟩

/-- C3: `categorize_risk` maps [0,25) to `"low"`, [25,50) to
`"moderate"`, [50,75) to `"elevated"` and [75,100] (top bound inclusive,
via the fallback) to `"high"`. -/
theorem C3_risk_category_boundaries (s : ℚ) :
    (0 ≤ s → s < 25 → categorize_risk s = "low") ∧
    (25 ≤ s → s < 50 → categorize_risk s = "moderate") ∧
    (50 ≤ s → s < 75 → categorize_risk s = "elevated") ∧
    (75 ≤ s → s ≤ 100 → categorize_risk s = "high") := by
  refine ⟨fun h1 h2 => ?_, fun h1 h2 => ?_, fun h1 h2 => ?_,
    fun h1 h2 => ?_⟩ <;> unfold categorize_risk
  · rw [if_pos ⟨h1, h2⟩]
  · rw [if_neg fun hc => absurd hc.2 (not_lt.mpr h1), if_pos ⟨h1, h2⟩]
  · rw [if_neg fun hc => absurd hc.2 (not_lt.mpr (by linarith)),
      if_neg fun hc => absurd hc.2 (not_lt.mpr h1), if_pos ⟨h1, h2⟩]
  · rcases lt_or_eq_of_le h2 with hlt | heq
    · rw [if_neg fun hc => absurd hc.2 (not_lt.mpr (by linarith)),
        if_neg fun hc => absurd hc.2 (not_lt.mpr (by linarith)),
        if_neg fun hc => absurd hc.2 (not_lt.mpr h1), if_pos ⟨h1, hlt⟩]
    · rw [if_neg fun hc => absurd hc.2 (not_lt.mpr (by linarith)),
        if_neg fun hc => absurd hc.2 (not_lt.mpr (by linarith)),
        if_neg fun hc => absurd hc.2 (not_lt.mpr (by linarith)),
        if_neg fun hc => absurd hc.2 (not_lt.mpr (le_of_eq heq.symm)),
        if_pos h1]

/-- Witness for C3 at the boundary scores named by the spec: 24.999, 25
and 100. -/
theorem C3_risk_category_boundaries_witness :
    categorize_risk (24999/1000) = "low" ∧
    categorize_risk 25 = "moderate" ∧ categorize_risk 100 = "high" :=
  ⟨(C3_risk_category_boundaries (24999/1000)).1 (by norm_num) (by norm_num),
   (C3_risk_category_boundaries 25).2.1 (by norm_num) (by norm_num),
   (C3_risk_category_boundaries 100).2.2.2 (by norm_num) (by norm_num)⟩

/-- C4: for a KPI that passes the truthiness test (all three values
present and nonzero, the test the code actually performs) with target
different from baseline, the computed achievement is
`min(|current - baseline| / |target - baseline| * 100, 100)` and lies in
[0,100]; a KPI with target equal to baseline, or any value missing, gets
no achievement and is dropped from the category aggregation rather than
scored as 0. -/
theorem C4_achievement_bounded_and_exclusion (k : ESGKpi) :
    (∀ t c b : ℚ, k.target_value = some t → k.current_value = some c →
      k.baseline_value = some b → t ≠ 0 → c ≠ 0 → b ≠ 0 → t ≠ b →
      kpiAchievement k = some (min (|c - b| / |t - b| * 100) 100) ∧
      0 ≤ min (|c - b| / |t - b| * 100) 100 ∧
      min (|c - b| / |t - b| * 100) 100 ≤ 100) ∧
    (∀ t b : ℚ, k.target_value = some t → k.baseline_value = some b →
      t = b → kpiAchievement k = none) ∧
    ((k.target_value = none ∨ k.current_value = none ∨
      k.baseline_value = none) → kpiAchievement k = none) ∧
    (∀ (l1 l2 : List ESGKpi) (cat : String), kpiAchievement k = none →
      categoryScores (l1 ++ k :: l2) cat = categoryScores (l1 ++ l2) cat) := by
  refine ⟨?_, ?_, ?_, ?_⟩
  · intro t c b ht hc hb h1 h2 h3 h4
    refine ⟨kpiAchievement_eq_some k t c b ht hc hb h1 h2 h3 h4, ?_,
      min_le_right _ _⟩
    exact le_min (by positivity) (by norm_num)
  · exact fun t b ht hb heq => kpiAchievement_eq_none_of_tb k t b ht hb heq
  · intro h
    apply kpiAchievement_eq_none
    rcases h with h | h | h
    · exact Or.inl h
    · exact Or.inr (Or.inr (Or.inl h))
    · exact Or.inr (Or.inr (Or.inr (Or.inr (Or.inl h))))
  · exact fun l1 l2 cat h => categoryScores_middle l1 l2 k cat h

/-- Witness for C4 at the scenario KPI of the spec (baseline 100, target
30, current 65): achievement `min(35/70*100, 100) = 50`. -/
theorem C4_achievement_bounded_and_exclusion_witness :
    kpiAchievement scenarioKpi
      = some (min (|(65 : ℚ) - 100| / |(30 : ℚ) - 100| * 100) 100) ∧
    0 ≤ min (|(65 : ℚ) - 100| / |(30 : ℚ) - 100| * 100) 100 ∧
    min (|(65 : ℚ) - 100| / |(30 : ℚ) - 100| * 100) 100 ≤ 100 :=
  (C4_achievement_bounded_and_exclusion scenarioKpi).1 30 65 100 rfl rfl rfl
    (by norm_num) (by norm_num) (by norm_num) (by norm_num)

/-- C5 counterexample: the score is rounded to two decimals, so for a
governance-only KPI set whose category mean is `100/3` the returned score
is `33.33`, not the category mean itself — the claimed equality fails. -/
theorem C5_counterexample :
    calculate_esg_performance_score [govKpi]
      ≠ listMean (categoryScores [govKpi] "governance") := by
  rw [esg_score_govKpi_eval, categoryScores_govKpi_gov]
  norm_num [listMean]

/-- C5 (amended): the score always lies in [0,100]; when no KPI
contributes to any category the score is the neutral 50; and when only the
governance category contributes, the score equals the governance category
mean rounded to two decimals (Python `round`, half to even) — the
rounding is the only divergence from the claim. -/
theorem C5_esg_score_neutral_and_renormalized (kpis : List ESGKpi) :
    (0 ≤ calculate_esg_performance_score kpis ∧
      calculate_esg_performance_score kpis ≤ 100) ∧
    ((∀ cat, categoryScores kpis cat = []) →
      calculate_esg_performance_score kpis = 50) ∧
    (categoryScores kpis "environmental" = [] →
      categoryScores kpis "social" = [] →
      categoryScores kpis "governance" ≠ [] →
      calculate_esg_performance_score kpis
        = round2 (listMean (categoryScores kpis "governance"))) :=
  ⟨esg_score_bounds kpis, esg_score_of_no_contrib kpis,
    esg_score_single_cat kpis⟩

/-- Witness for C5 (amended): the empty KPI set scores 50, and the
governance-only set `[govKpi]` scores the rounded governance mean. -/
theorem C5_esg_score_neutral_and_renormalized_witness :
    calculate_esg_performance_score ([] : List ESGKpi) = 50 ∧
    calculate_esg_performance_score [govKpi]
      = round2 (listMean (categoryScores [govKpi] "governance")) :=
  ⟨(C5_esg_score_neutral_and_renormalized []).2.1 fun _ => rfl,
   (C5_esg_score_neutral_and_renormalized [govKpi]).2.2
     categoryScores_govKpi_env categoryScores_govKpi_soc
     (by rw [categoryScores_govKpi_gov]; simp)⟩

/-- C6: the pricing tier margin adjustment is antitone in the ESG score
(higher score never gives a larger adjustment), and the descending-order
tier table maps score ranges to tiers and adjustments exactly as the
claim lists them. -/
theorem C6_pricing_tier_monotonic :
    (∀ a b : ℚ, a < b →
      calculate_margin_adjustment b ≤ calculate_margin_adjustment a) ∧
    (∀ s : ℚ,
      (90 ≤ s → determine_pricing_tier s = "excellent" ∧
        calculate_margin_adjustment s = -(1/2)) ∧
      (75 ≤ s → s < 90 → determine_pricing_tier s = "good" ∧
        calculate_margin_adjustment s = -(1/4)) ∧
      (60 ≤ s → s < 75 → determine_pricing_tier s = "fair" ∧
        calculate_margin_adjustment s = 0) ∧
      (40 ≤ s → s < 60 → determine_pricing_tier s = "poor" ∧
        calculate_margin_adjustment s = 1/4) ∧
      (s < 40 → determine_pricing_tier s = "critical" ∧
        calculate_margin_adjustment s = 1/2)) := by
  constructor
  · intro a b hab
    rw [margin_adjustment_eq a, margin_adjustment_eq b]
    split_ifs <;> linarith
  · intro s
    refine ⟨fun h1 => ⟨?_, ?_⟩, fun h1 h2 => ⟨?_, ?_⟩, fun h1 h2 => ⟨?_, ?_⟩,
      fun h1 h2 => ⟨?_, ?_⟩, fun h1 => ⟨?_, ?_⟩⟩
    · unfold determine_pricing_tier
      rw [if_pos h1]
    · rw [margin_adjustment_eq, if_pos h1]
    · unfold determine_pricing_tier
      rw [if_neg (not_le.mpr h2), if_pos h1]
    · rw [margin_adjustment_eq, if_neg (not_le.mpr h2), if_pos h1]
    · unfold determine_pricing_tier
      rw [if_neg (not_le.mpr (by linarith)), if_neg (not_le.mpr h2),
        if_pos h1]
    · rw [margin_adjustment_eq, if_neg (not_le.mpr (by linarith)),
        if_neg (not_le.mpr h2), if_pos h1]
    · unfold determine_pricing_tier
      rw [if_neg (not_le.mpr (by linarith)),
        if_neg (not_le.mpr (by linarith)), if_neg (not_le.mpr h2),
        if_pos h1]
    · rw [margin_adjustment_eq, if_neg (not_le.mpr (by linarith)),
        if_neg (not_le.mpr (by linarith)), if_neg (not_le.mpr h2),
        if_pos h1]
    · unfold determine_pricing_tier
      rw [if_neg (not_le.mpr (by linarith)),
        if_neg (not_le.mpr (by linarith)),
        if_neg (not_le.mpr (by linarith)), if_neg (not_le.mpr h1)]
      split_ifs <;> rfl
    · rw [margin_adjustment_eq, if_neg (not_le.mpr (by linarith)),
        if_neg (not_le.mpr (by linarith)),
        if_neg (not_le.mpr (by linarith)), if_neg (not_le.mpr h1)]

/-- Witness for C6: scores 50 < 95 give adjustments 1/4 ≥ -(1/2), and
score 50 lands in tier `"poor"` with adjustment +0.25 (the scenario of
the spec). -/
theorem C6_pricing_tier_monotonic_witness :
    calculate_margin_adjustment 95 ≤ calculate_margin_adjustment 50 ∧
    (determine_pricing_tier 50 = "poor" ∧
      calculate_margin_adjustment 50 = 1/4) :=
  ⟨C6_pricing_tier_monotonic.1 50 95 (by norm_num),
   (C6_pricing_tier_monotonic.2 50).2.2.2.1 (by norm_num) (by norm_num)⟩

/-- C7: a loan that is not sustainability-linked is always
`"article_6"`; otherwise, with `m` the number of KPIs having both target
and baseline set, `m ≥ 5` gives `"article_9"`, `2 ≤ m < 5` gives
`"article_8"` and `m < 2` (including no KPIs at all) gives
`"article_6"`. -/
theorem C7_sfdr_article_classification (loan : Loan) (kpis : List ESGKpi) :
    (loan.sustainability_linked = false →
      classify_loan_sfdr_article loan kpis = "article_6") ∧
    (loan.sustainability_linked = true →
      (5 ≤ meaningfulTargetCount kpis →
        classify_loan_sfdr_article loan kpis = "article_9") ∧
      (2 ≤ meaningfulTargetCount kpis → meaningfulTargetCount kpis < 5 →
        classify_loan_sfdr_article loan kpis = "article_8") ∧
      (meaningfulTargetCount kpis < 2 →
        classify_loan_sfdr_article loan kpis = "article_6")) := by
  constructor
  · intro h
    unfold classify_loan_sfdr_article
    rw [h]
    rfl
  · intro h
    have hnil : meaningfulTargetCount [] = 0 := rfl
    refine ⟨fun h5 => ?_, fun h2 h5 => ?_, fun h2 => ?_⟩
    · have hk : kpis ≠ [] := by
        intro hd
        rw [hd, hnil] at h5
        omega
      unfold classify_loan_sfdr_article
      rw [if_neg (by simp [h]), if_neg hk, if_pos h5]
    · have hk : kpis ≠ [] := by
        intro hd
        rw [hd, hnil] at h2
        omega
      unfold classify_loan_sfdr_article
      rw [if_neg (by simp [h]), if_neg hk, if_neg (not_le.mpr h5),
        if_pos h2]
    · by_cases hk : kpis = []
      · unfold classify_loan_sfdr_article
        rw [if_neg (by simp [h]), if_pos hk]
      · unfold classify_loan_sfdr_article
        rw [if_neg (by simp [h]), if_neg hk,
          if_neg (not_le.mpr (by omega)), if_neg (not_le.mpr h2)]

/-- Witness for C7: a non-linked loan with a meaningful KPI is
`"article_6"`; a linked loan with five, two and one meaningful KPIs is
`"article_9"`, `"article_8"` and `"article_6"` respectively. -/
theorem C7_sfdr_article_classification_witness :
    classify_loan_sfdr_article unlinkedLoan [meaningfulKpi] = "article_6" ∧
    classify_loan_sfdr_article plainLoan
      (List.replicate 5 meaningfulKpi) = "article_9" ∧
    classify_loan_sfdr_article plainLoan
      [meaningfulKpi, meaningfulKpi] = "article_8" ∧
    classify_loan_sfdr_article plainLoan [meaningfulKpi] = "article_6" :=
  ⟨(C7_sfdr_article_classification unlinkedLoan [meaningfulKpi]).1 rfl,
   ((C7_sfdr_article_classification plainLoan
      (List.replicate 5 meaningfulKpi)).2 rfl).1 (by decide),
   ((C7_sfdr_article_classification plainLoan
      [meaningfulKpi, meaningfulKpi]).2 rfl).2.1 (by decide) (by decide),
   ((C7_sfdr_article_classification plainLoan [meaningfulKpi]).2 rfl).2.2
     (by decide)⟩

/-- C8: the claim says `predict_breach_date` always returns the earliest
qualifying projection or no date; but the months ratio
`(current - threshold) / (threshold * 0.05)` is unguarded, so a
minimum-type covenant with threshold 0 and negative current value raises
a `ZeroDivisionError` (first conjunct).  The second conjunct confirms the
claim for the non-minimum types: a covenant list with no
minimum-type covenant never produces a projected date. -/
theorem C8_breach_date_zero_threshold_raises :
    predict_breach_date [zeroThresholdNegCovenant] = Except.error () ∧
    ∀ covs : List Covenant,
      (∀ c ∈ covs, c.covenant_type ∉ minimumCovenantTypes) →
      predict_breach_date covs = Except.ok none := by
  constructor
  · simp [predict_breach_date, predictFold, breachStep,
      zeroThresholdNegCovenant, minimumCovenantTypes]
  · intro covs h
    unfold predict_breach_date
    split_ifs with hemp
    · rfl
    · exact predictFold_skip _ none fun c hc => h c (List.mem_filter.mp hc).1

/-- Witness for the hypothesised conjunct of C8: a maximum-type covenant
alone never yields a projected breach date. -/
theorem C8_breach_date_zero_threshold_raises_witness :
    predict_breach_date [maxCovenant] = Except.ok none :=
  C8_breach_date_zero_threshold_raises.2 [maxCovenant] (by decide)

/-- C9 counterexample: a KPI with baseline 0 (present but zero) is NOT
excluded by `calculate_sustainable_investment_percentage`, which never
reads `baseline_value`: with the KPI present the result is 100, while
with the KPI absent (as the claim predicts for "excluded exactly as if
missing") it is 0. -/
theorem C9_counterexample :
    zeroBaselineKpi.baseline_value = some 0 ∧
    calculate_sustainable_investment_percentage plainLoan [zeroBaselineKpi]
      = 100 ∧
    calculate_sustainable_investment_percentage plainLoan [] = 0 :=
  ⟨rfl, sip_zeroBaselineKpi_eval, rfl⟩

/-- C9 (amended): a KPI whose `current_value` or `target_value` is zero
(or missing) is excluded — as if absent — from all three calculators;
a KPI whose `baseline_value` is zero (or missing) is excluded from the
two ESG scorers only, because the sustainable-investment calculator
never reads `baseline_value`. -/
theorem C9_zero_truthiness_exclusion (l1 l2 : List ESGKpi) (k : ESGKpi)
    (loan : Loan) :
    ((k.current_value = none ∨ k.current_value = some 0 ∨
      k.target_value = none ∨ k.target_value = some 0) →
      calculate_esg_performance_score (l1 ++ k :: l2)
        = calculate_esg_performance_score (l1 ++ l2) ∧
      calculate_esg_risk_score (l1 ++ k :: l2)
        = calculate_esg_risk_score (l1 ++ l2) ∧
      calculate_sustainable_investment_percentage loan (l1 ++ k :: l2)
        = calculate_sustainable_investment_percentage loan (l1 ++ l2)) ∧
    ((k.baseline_value = none ∨ k.baseline_value = some 0) →
      calculate_esg_performance_score (l1 ++ k :: l2)
        = calculate_esg_performance_score (l1 ++ l2) ∧
      calculate_esg_risk_score (l1 ++ k :: l2)
        = calculate_esg_risk_score (l1 ++ l2)) := by
  constructor
  · intro h
    have ha : kpiAchievement k = none := kpiAchievement_eq_none k (by tauto)
    have hr : kpiRiskFactor k = none := kpiRiskFactor_eq_none k (by tauto)
    have hd : dnshFlag k = none := dnshFlag_eq_none k (by tauto)
    exact ⟨esg_score_middle l1 l2 k ha, esg_risk_middle l1 l2 k hr,
      sip_middle loan l1 l2 k hd⟩
  · intro h
    have ha : kpiAchievement k = none := kpiAchievement_eq_none k (by tauto)
    have hr : kpiRiskFactor k = none := kpiRiskFactor_eq_none k (by tauto)
    exact ⟨esg_score_middle l1 l2 k ha, esg_risk_middle l1 l2 k hr⟩

/-- Witness for C9 (amended): a zero-current KPI is dropped by all three
calculators; a zero-baseline KPI is dropped by the two ESG scorers. -/
theorem C9_zero_truthiness_exclusion_witness :
    (calculate_esg_performance_score ([] ++ zeroCurrentKpi :: [])
        = calculate_esg_performance_score ([] ++ []) ∧
      calculate_esg_risk_score ([] ++ zeroCurrentKpi :: [])
        = calculate_esg_risk_score ([] ++ []) ∧
      calculate_sustainable_investment_percentage plainLoan
          ([] ++ zeroCurrentKpi :: [])
        = calculate_sustainable_investment_percentage plainLoan ([] ++ [])) ∧
    (calculate_esg_performance_score ([] ++ zeroBaselineKpi :: [])
        = calculate_esg_performance_score ([] ++ []) ∧
      calculate_esg_risk_score ([] ++ zeroBaselineKpi :: [])
        = calculate_esg_risk_score ([] ++ [])) :=
  ⟨(C9_zero_truthiness_exclusion [] [] zeroCurrentKpi plainLoan).1
     (Or.inr (Or.inl rfl)),
   (C9_zero_truthiness_exclusion [] [] zeroBaselineKpi plainLoan).2
     (Or.inr rfl)⟩

/-- C10: `update_loan_pricing` substitutes default base margin 2.0 when
`loan.base_margin` is `None` or 0 and default base rate 4.0 when
`loan.interest_rate` is `None` or 0 (Python `or` tests truthiness), and
the stored new margin and total rate are built from the substituted
values: `new_margin = base_margin + adjustment` and
`new_total_rate = base_rate + new_margin`. -/
theorem C10_pricing_defaults (loan : Loan) (kpis : List ESGKpi) :
    ((loan.base_margin = none ∨ loan.base_margin = some 0) →
      (update_loan_pricing loan kpis).base_margin = 2) ∧
    ((loan.interest_rate = none ∨ loan.interest_rate = some 0) →
      (update_loan_pricing loan kpis).base_rate = 4) ∧
    (update_loan_pricing loan kpis).new_margin
      = (update_loan_pricing loan kpis).base_margin
        + calculate_margin_adjustment (calculate_esg_performance_score kpis) ∧
    (update_loan_pricing loan kpis).new_total_rate
      = (update_loan_pricing loan kpis).base_rate
        + (update_loan_pricing loan kpis).new_margin := by
  refine ⟨?_, ?_, ?_, ?_⟩
  · rintro (h | h) <;> simp [update_loan_pricing, orDefault, h]
  · rintro (h | h) <;> simp [update_loan_pricing, orDefault, h]
  · simp [update_loan_pricing]
  · simp [update_loan_pricing]

/-- Witness for C10 at a loan whose base margin and interest rate are
both `None`. -/
theorem C10_pricing_defaults_witness :
    (update_loan_pricing plainLoan []).base_margin = 2 ∧
    (update_loan_pricing plainLoan []).base_rate = 4 :=
  ⟨(C10_pricing_defaults plainLoan []).1 (Or.inl rfl),
   (C10_pricing_defaults plainLoan []).2.1 (Or.inl rfl)⟩

end ESGLend
